import Mathlib

/-!
Verification of the VIRALYTIX epidemic-simulation core
(`backend/ai_models/simulation.py` and the policy endpoint of
`backend/routers/simulation.py`) against its natural-language specification.

The Python code is shallowly embedded:
* Python `float` arithmetic is modelled by exact rational arithmetic (`ℚ`);
* Python `int(x)` (truncation toward zero) is `pytrunc`;
* compartment counts are `ℤ` (Python ints, which the source may drive negative);
* the wall-clock date stamp `datetime.now() + timedelta(days=day)` is
  abstracted to an integer day number `now + day`, where `now` is the
  wall-clock day at which the run happens;
* every `random.uniform`/`random.randint` draw of the source is an explicit
  parameter of the embedding (district characteristics, default virus
  parameters), so seeding a generator corresponds to fixing these arguments;
* a Python `ZeroDivisionError` is modelled, where a claim is about it, by an
  `Except Unit` value produced by the checked division `pydiv`.
-/

namespace Viralytix

/-- Python `int()` applied to a rational: truncation toward zero. -/
def pytrunc (q : ℚ) : ℤ := if 0 ≤ q then ⌊q⌋ else -⌊-q⌋

/-- A city district as generated by `BioDigitalTwin._generate_districts`
(lines 50-73): the randomly drawn characteristics that the simulator and the
scorer later read.  `population` is the (already rescaled) integer population. -/
structure District where
  name : String
  population : ℤ
  healthcare_capacity : ℚ
  population_density_factor : ℚ
  socioeconomic_index : ℚ
  vaccination_rate : ℚ
  deriving Repr, DecidableEq, Inhabited

/-- Derived vulnerability index of a district (simulation.py lines 66-71):
`0.3·(1−healthcare_capacity) + 0.3·density_factor + 0.2·(1−socioeconomic) +
0.2·(1−vaccination_rate)`. -/
def vulnerabilityIndex (d : District) : ℚ :=
  (1 - d.healthcare_capacity) * (3/10) + d.population_density_factor * (3/10) +
    (1 - d.socioeconomic_index) * (1/5) + (1 - d.vaccination_rate) * (1/5)

/-- Per-district epidemic state, mutated each simulated day
(simulation.py lines 154-165). -/
structure DistrictState where
  susceptible : ℤ
  exposed : ℤ
  infectious : ℤ
  hospitalized : ℤ
  recovered : ℤ
  deceased : ℤ
  healthcare_exceeded : Bool
  deriving Repr, DecidableEq

instance : Inhabited DistrictState :=
  ⟨{ susceptible := 0, exposed := 0, infectious := 0, hospitalized := 0,
     recovered := 0, deceased := 0, healthcare_exceeded := false }⟩

/-- Sum of the six compartments of a district state. -/
def stateSum (s : DistrictState) : ℤ :=
  s.susceptible + s.exposed + s.infectious + s.hospitalized + s.recovered + s.deceased

/-- Virus parameters (simulation.py lines 101-108).  When the caller passes
none, the source draws them from `random.uniform`; the draw is an explicit
argument here. -/
structure VirusParams where
  r0 : ℚ
  incubation_period_days : ℚ
  infectious_period_days : ℚ
  hospitalization_rate : ℚ
  fatality_rate : ℚ
  deriving Repr, DecidableEq, Inhabited

/-- Intervention parameters (simulation.py lines 112-119). -/
structure InterventionParams where
  social_distancing : ℚ
  masking : ℚ
  testing_rate : ℚ
  contact_tracing : ℚ
  travel_restrictions : ℚ
  vaccination_campaign : ℚ
  deriving Repr, DecidableEq, Inhabited

/-- Global effective reproduction number (simulation.py lines 122-127):
`r0 × (1 − 0.4·sd − 0.2·mask − 0.3·testing·tracing − 0.1·travel)`. -/
def effectiveR0 (v : VirusParams) (iv : InterventionParams) : ℚ :=
  v.r0 * (1 - iv.social_distancing * (2/5) - iv.masking * (1/5) -
    iv.testing_rate * iv.contact_tracing * (3/10) - iv.travel_restrictions * (1/10))

/-- District-adjusted effective R0 (simulation.py lines 186-189). -/
def districtEffectiveR0 (effR0 : ℚ) (d : District) : ℚ :=
  effR0 * (1 + (d.population_density_factor - 1) * (3/10) + (1 - d.vaccination_rate) * (1/5))

/-- Hospitalization-rate modifier: `1.2` once the district's hospitalized count
exceeds `healthcare_capacity × 100`, else `1` (simulation.py lines 227-232). -/
def hospModifier (d : District) (s : DistrictState) : ℚ :=
  if d.healthcare_capacity * 100 < (s.hospitalized : ℚ) then 6/5 else 1

/-- Fatality-rate modifier: `1.5` under healthcare overflow, else `1`
(simulation.py lines 227-232). -/
def fatModifier (d : District) (s : DistrictState) : ℚ :=
  if d.healthcare_capacity * 100 < (s.hospitalized : ℚ) then 3/2 else 1

/-- The `healthcare_exceeded` flag written for the day (simulation.py lines 227-232). -/
def healthcareExceededNow (d : District) (s : DistrictState) : Bool :=
  decide (d.healthcare_capacity * 100 < (s.hospitalized : ℚ))

/-- New infectious cases: `int(exposed / incubation_period_days)`
(simulation.py line 219). -/
def newInfectiousOf (v : VirusParams) (s : DistrictState) : ℤ :=
  pytrunc ((s.exposed : ℚ) / v.incubation_period_days)

/-- Cases leaving the infectious compartment:
`int(infectious / infectious_period_days)` (simulation.py line 220). -/
def newOutcomesOf (v : VirusParams) (s : DistrictState) : ℤ :=
  pytrunc ((s.infectious : ℚ) / v.infectious_period_days)

/-- New hospitalizations:
`int(new_outcomes × hospitalization_rate × hospitalization_modifier)`
(simulation.py line 234). -/
def newHospitalizedOf (v : VirusParams) (d : District) (s : DistrictState) : ℤ :=
  pytrunc ((newOutcomesOf v s : ℚ) * v.hospitalization_rate * hospModifier d s)

/-- Direct recoveries: `int(new_outcomes × (1 − hospitalization_rate))`
(simulation.py line 235). -/
def newRecoveredDirectOf (v : VirusParams) (s : DistrictState) : ℤ :=
  pytrunc ((newOutcomesOf v s : ℚ) * (1 - v.hospitalization_rate))

/-- Hospitalized cases resolving today: `int(hospitalized × 0.1)`
(simulation.py line 238). -/
def hospitalOutcomesOf (s : DistrictState) : ℤ :=
  pytrunc ((s.hospitalized : ℚ) * (1/10))

/-- Hospital deaths: `int(hospital_outcomes × fatality_rate × fatality_modifier)`
(simulation.py line 239). -/
def hospitalDeathsOf (v : VirusParams) (d : District) (s : DistrictState) : ℤ :=
  pytrunc ((hospitalOutcomesOf s : ℚ) * v.fatality_rate * fatModifier d s)

/-- One cross-district infection term (simulation.py lines 207-212):
`int(other_infectious × districtR0 / infectious_period × susceptible/population
× mobility × 0.1)`. -/
def crossInfection (v : VirusParams) (dr0 : ℚ) (sus pop : ℤ) (mob : ℚ)
    (otherInfectious : ℤ) : ℤ :=
  pytrunc ((otherInfectious : ℚ) * dr0 / v.infectious_period_days *
    ((sus : ℚ) / (pop : ℚ)) * mob * (1/10))

/-- Sum of cross-district exposures into district `i`
(simulation.py lines 200-214): one truncated term per other district. -/
def externalExposures (v : VirusParams) (dr0 mob : ℚ) (sus pop : ℤ)
    (pairs : List (District × DistrictState)) (i : ℕ) : ℤ :=
  ((List.range pairs.length).filter (fun j => j ≠ i)).foldl
    (fun acc j => acc + crossInfection v dr0 sus pop mob
      ((pairs.getD j default).2.infectious)) 0

/-- Internal exposures of district `i` (simulation.py lines 192-197):
`int(infectious × districtR0 / infectious_period × susceptible/population ×
(1 − travel_restrictions))`. -/
def internalExposures (v : VirusParams) (iv : InterventionParams) (dr0 : ℚ)
    (d : District) (s : DistrictState) : ℤ :=
  pytrunc ((s.infectious : ℚ) * dr0 / v.infectious_period_days *
    ((s.susceptible : ℚ) / (d.population : ℚ)) * (1 - iv.travel_restrictions))

/-- One day of disease progression for the district at index `i`, reading the
current (partially updated) list of district states — the source mutates
`simulation_state["districts"]` in place while iterating, so district `i` sees
the already-updated states of districts `j < i` (simulation.py lines 182-253). -/
def stepOne (v : VirusParams) (iv : InterventionParams) (effR0 : ℚ)
    (pairs : List (District × DistrictState)) (i : ℕ) : DistrictState :=
  let d := (pairs.getD i default).1
  let s := (pairs.getD i default).2
  let dr0 := districtEffectiveR0 effR0 d
  let mob := (7/10 : ℚ) * (1 - iv.travel_restrictions)
  let totalNewExposures :=
    min (internalExposures v iv dr0 d s +
         externalExposures v dr0 mob s.susceptible d.population pairs i) s.susceptible
  let newInf := newInfectiousOf v s
  let newOut := newOutcomesOf v s
  let newHosp := newHospitalizedOf v d s
  let newRecD := newRecoveredDirectOf v s
  let hOut := hospitalOutcomesOf s
  let hDeath := hospitalDeathsOf v d s
  let hRec := hOut - hDeath
  let sus1 := s.susceptible - totalNewExposures
  let newVacc := pytrunc ((sus1 : ℚ) * iv.vaccination_campaign)
  { susceptible := sus1 - newVacc
    exposed := s.exposed + totalNewExposures - newInf
    infectious := s.infectious + newInf - newOut
    hospitalized := s.hospitalized + newHosp - hOut
    recovered := s.recovered + newRecD + hRec + newVacc
    deceased := s.deceased + hDeath
    healthcare_exceeded := healthcareExceededNow d s }

/-- One simulated day over all districts, sequentially in list order with
in-place updates, as the source's `for district_idx, district_state in
enumerate(...)` loop does. -/
def dayUpdate (v : VirusParams) (iv : InterventionParams) (effR0 : ℚ)
    (pairs : List (District × DistrictState)) : List (District × DistrictState) :=
  (List.range pairs.length).foldl
    (fun acc i => acc.set i ((acc.getD i default).1, stepOne v iv effR0 acc i)) pairs

/-- Per-district entry of a daily summary (simulation.py lines 301-314). -/
structure DistrictSnapshot where
  name : String
  susceptible : ℤ
  exposed : ℤ
  infectious : ℤ
  hospitalized : ℤ
  recovered : ℤ
  deceased : ℤ
  healthcare_exceeded : Bool
  deriving Repr, DecidableEq, Inhabited

/-- Snapshot of one district taken by `_get_simulation_summary`. -/
def snapshotOf (p : District × DistrictState) : DistrictSnapshot :=
  { name := p.1.name
    susceptible := p.2.susceptible
    exposed := p.2.exposed
    infectious := p.2.infectious
    hospitalized := p.2.hospitalized
    recovered := p.2.recovered
    deceased := p.2.deceased
    healthcare_exceeded := p.2.healthcare_exceeded }

/-- Daily simulation summary (`_get_simulation_summary`, simulation.py
lines 290-315).  `date` abstracts the source's
`(datetime.now() + timedelta(days=day)).strftime(...)` as `now + day`. -/
structure DailySummary where
  day : ℕ
  date : ℤ
  total_susceptible : ℤ
  total_exposed : ℤ
  total_infectious : ℤ
  total_hospitalized : ℤ
  total_recovered : ℤ
  total_deceased : ℤ
  districts : List DistrictSnapshot
  deriving Repr, DecidableEq, Inhabited

/-- Running simulation state (simulation.py lines 130-139). -/
structure SimState where
  day : ℕ
  totS : ℤ
  totE : ℤ
  totI : ℤ
  totH : ℤ
  totR : ℤ
  totD : ℤ
  pairs : List (District × DistrictState)
  deriving Repr, DecidableEq, Inhabited

/-- Build the daily summary of a state, stamping the wall-clock date. -/
def summaryOf (now : ℤ) (st : SimState) : DailySummary :=
  { day := st.day
    date := now + st.day
    total_susceptible := st.totS
    total_exposed := st.totE
    total_infectious := st.totI
    total_hospitalized := st.totH
    total_recovered := st.totR
    total_deceased := st.totD
    districts := st.pairs.map snapshotOf }

/-- Advance the simulation by one day: update each district in sequence, then
recompute the city totals (simulation.py lines 177-261). -/
def simStep (v : VirusParams) (iv : InterventionParams) (effR0 : ℚ)
    (st : SimState) : SimState :=
  let pairs := dayUpdate v iv effR0 st.pairs
  { day := st.day + 1
    totS := (pairs.map (fun p => p.2.susceptible)).sum
    totE := (pairs.map (fun p => p.2.exposed)).sum
    totI := (pairs.map (fun p => p.2.infectious)).sum
    totH := (pairs.map (fun p => p.2.hospitalized)).sum
    totR := (pairs.map (fun p => p.2.recovered)).sum
    totD := (pairs.map (fun p => p.2.deceased)).sum
    pairs := pairs }

/-- The daily loop (simulation.py lines 177-268): run up to the given number of
days, appending a summary after each day, and stop early once total exposed and
total infectious are both zero. -/
def runDays (v : VirusParams) (iv : InterventionParams) (effR0 : ℚ) (now : ℤ) :
    ℕ → SimState → List DailySummary
  | 0, _ => []
  | Nat.succ n, st =>
    let st2 := simStep v iv effR0 st
    summaryOf now st2 ::
      (if st2.totE = 0 ∧ st2.totI = 0 then [] else runDays v iv effR0 now n st2)

/-- Seed the initial cases across districts in order, weighted by vulnerability
and capped by the remaining cases (simulation.py lines 145-167).  Returns the
initial district states together with the still-undistributed remainder. -/
def seedAux (V : ℚ) (c : ℤ) : List District → ℤ → List DistrictState × ℤ
  | [], rem => ([], rem)
  | d :: ds, rem =>
    let dc0 := pytrunc ((c : ℚ) * vulnerabilityIndex d / V)
    let dc := if rem < dc0 then rem else dc0
    let rest := seedAux V c ds (rem - dc)
    ({ susceptible := d.population - dc, exposed := dc, infectious := 0,
       hospitalized := 0, recovered := 0, deceased := 0,
       healthcare_exceeded := false } :: rest.1, rest.2)

/-- Move the still-undistributed remainder onto the first district's exposed
compartment, subtracting it from its susceptible compartment
(simulation.py lines 169-172). -/
def bumpHead (rem : ℤ) : List DistrictState → List DistrictState
  | [] => []
  | s :: rest =>
    { s with exposed := s.exposed + rem, susceptible := s.susceptible - rem } :: rest

/-- Initial district states: seed by vulnerability, then dump any remaining
cases onto the first district (simulation.py lines 141-172). -/
def seedStates (districts : List District) (c : ℤ) : List DistrictState :=
  let V := (districts.map vulnerabilityIndex).sum
  let r := seedAux V c districts c
  if 0 < r.2 then bumpHead r.2 r.1 else r.1

/-- Initial simulation state (simulation.py lines 130-172): city totals use the
city population, the per-district states come from the seeding step. -/
def initState (cityPop : ℤ) (districts : List District) (c : ℤ) : SimState :=
  { day := 0
    totS := cityPop - c
    totE := c
    totI := 0
    totH := 0
    totR := 0
    totD := 0
    pairs := districts.zip (seedStates districts c) }

/-- Maximum of a list of integers with a Python-`max`-style nonempty seed. -/
def listMaxZ : List ℤ → ℤ
  | [] => 0
  | x :: xs => xs.foldl max x

/-- Final simulation results (simulation.py lines 271-288).  `city_population`
is the `results["city"]["population"]` field that the scorer later reads. -/
structure SimResults where
  effective_r0 : ℚ
  simulation_days : ℕ
  peak_cases : ℤ
  peak_hospitalizations : ℤ
  total_cases : ℤ
  total_deaths : ℤ
  daily_results : List DailySummary
  city_population : ℤ
  deriving Repr, DecidableEq, Inhabited

/-- `BioDigitalTwin.run_outbreak_simulation` (simulation.py lines 86-288), with
the city model (already-generated districts plus city population), the virus
draw, the interventions, the horizon, the initial cases and the wall-clock day
`now` all explicit. -/
def run_outbreak_simulation (cityPop : ℤ) (districts : List District)
    (v : VirusParams) (iv : InterventionParams) (days : ℕ) (c : ℤ) (now : ℤ) :
    SimResults :=
  let effR0 := effectiveR0 v iv
  let st0 := initState cityPop districts c
  let daily := summaryOf now st0 :: runDays v iv effR0 now days st0
  { effective_r0 := effR0
    simulation_days := daily.length
    peak_cases := listMaxZ (daily.map (fun s => s.total_infectious))
    peak_hospitalizations := listMaxZ (daily.map (fun s => s.total_hospitalized))
    total_cases := (daily.getLastD default).total_infectious +
      (daily.getLastD default).total_recovered + (daily.getLastD default).total_deceased
    total_deaths := (daily.getLastD default).total_deceased
    daily_results := daily
    city_population := cityPop }

/-! ## Policy catalog and government decision simulator -/

/-- Dictionary lookup with default, mirroring Python's `dict.get(key, default)`
as used throughout `GovernmentDecisionSimulator`. -/
def policyLookup (tbl : List (String × ℚ)) (key : String) (dflt : ℚ) : ℚ :=
  match tbl.find? (fun p => p.1 == key) with
  | some p => p.2
  | none => dflt

/-- Policy option table `social_distancing` (simulation.py lines 327-332). -/
def socialDistancingOptions : List (String × ℚ) :=
  [("none", 0), ("recommended", 1/5), ("required", 1/2), ("strict_lockdown", 4/5)]

/-- Policy option table `masking` (simulation.py lines 333-338). -/
def maskingOptions : List (String × ℚ) :=
  [("none", 0), ("recommended", 3/10), ("required_indoors", 3/5), ("required_everywhere", 4/5)]

/-- Policy option table `testing` (simulation.py lines 339-344). -/
def testingOptions : List (String × ℚ) :=
  [("minimal", 1/100), ("symptomatic_only", 1/20), ("expanded", 3/20), ("mass_testing", 3/10)]

/-- Policy option table `contact_tracing` (simulation.py lines 345-350). -/
def contactTracingOptions : List (String × ℚ) :=
  [("none", 0), ("manual", 3/10), ("app_based", 1/2), ("comprehensive", 4/5)]

/-- Policy option table `travel_restrictions` (simulation.py lines 351-356). -/
def travelRestrictionsOptions : List (String × ℚ) :=
  [("none", 0), ("advisory", 1/5), ("partial_restrictions", 1/2), ("full_restrictions", 9/10)]

/-- Policy option table `vaccination` (simulation.py lines 357-362). -/
def vaccinationOptions : List (String × ℚ) :=
  [("none", 0), ("high_risk_only", 1/1000), ("expanded_eligibility", 3/1000),
   ("universal_campaign", 7/1000)]

/-- Policy option table `economic_support` (simulation.py lines 363-368). -/
def economicSupportOptions : List (String × ℚ) :=
  [("none", 0), ("limited", 3/10), ("moderate", 3/5), ("comprehensive", 9/10)]

/-- Policy option table `healthcare_capacity` (simulation.py lines 369-374). -/
def healthcareCapacityOptions : List (String × ℚ) :=
  [("baseline", 0), ("expanded", 3/10), ("field_hospitals", 3/5), ("maximum_expansion", 9/10)]

/-- A policy decision: the caller-supplied dictionary mapping each of the eight
policy dimensions to a categorical level.  A missing key is `none` here, since
the source reads the dictionary with `.get(dimension, default_level)`. -/
structure PolicyDecision where
  social_distancing : Option String
  masking : Option String
  testing : Option String
  contact_tracing : Option String
  travel_restrictions : Option String
  vaccination : Option String
  economic_support : Option String
  healthcare_capacity : Option String
  deriving Repr, DecidableEq, Inhabited

/-- Conversion of a policy decision to intervention parameters
(`simulate_policy_impact`, simulation.py lines 390-410): every lookup is a
`.get` with a numeric default, applied to the level obtained by a `.get` with a
default level, so unknown levels never fail. -/
def interventionParamsOf (pd : PolicyDecision) : InterventionParams :=
  { social_distancing := policyLookup socialDistancingOptions (pd.social_distancing.getD "none") 0
    masking := policyLookup maskingOptions (pd.masking.getD "none") 0
    testing_rate := policyLookup testingOptions (pd.testing.getD "minimal") (1/100)
    contact_tracing := policyLookup contactTracingOptions (pd.contact_tracing.getD "none") 0
    travel_restrictions :=
      policyLookup travelRestrictionsOptions (pd.travel_restrictions.getD "none") 0
    vaccination_campaign := policyLookup vaccinationOptions (pd.vaccination.getD "none") 0 }

/-- Python's `x or 1` applied to a list length, the guard used for the
equity-impact average (simulation.py line 482). -/
def orOne (n : ℕ) : ℕ := if n = 0 then 1 else n

/-- Denominator of the equity-impact average: the number of districts with
vulnerability index above 0.6, guarded by `or 1` (simulation.py lines 474-482). -/
def equityDenominator (districts : List District) : ℕ :=
  orOne ((districts.filter (fun d => decide ((3/5 : ℚ) < vulnerabilityIndex d))).length)

/-- Socioeconomic impact record (simulation.py lines 484-503). -/
structure SocioImpact where
  gdp_reduction_percent : ℚ
  unemployment_increase_percent : ℚ
  business_closures_percent : ℚ
  mental_health_index : ℚ
  education_disruption_index : ℚ
  social_cohesion_impact : ℚ
  system_strain_index : ℚ
  non_covid_care_reduction_percent : ℚ
  vulnerable_populations_index : ℚ
  inequality_increase_percent : ℚ
  deriving Repr, DecidableEq, Inhabited

/-- `GovernmentDecisionSimulator._calculate_socioeconomic_impact`
(simulation.py lines 439-503). -/
def calcSocioImpact (pd : PolicyDecision) (health : SimResults)
    (cityPop : ℤ) (districts : List District) : SocioImpact :=
  let sdVal := policyLookup socialDistancingOptions (pd.social_distancing.getD "none") 0
  let trVal := policyLookup travelRestrictionsOptions (pd.travel_restrictions.getD "none") 0
  let econSupport := policyLookup economicSupportOptions (pd.economic_support.getD "none") 0
  let economicImpact := (sdVal * (1/2) + trVal * (3/10)) * (1 - econSupport * (7/10))
  let unemploymentImpact := economicImpact * (3/2)
  let mentalHealthImpact := sdVal * (2/5) + economicImpact * (3/10) +
    ((health.total_deaths : ℚ) / (cityPop : ℚ)) * 100
  let educationImpact := sdVal * (4/5)
  let hcExpansion := policyLookup healthcareCapacityOptions (pd.healthcare_capacity.getD "baseline") 0
  let peakHospRate := (health.peak_hospitalizations : ℚ) / (cityPop : ℚ)
  let healthcareStrain := peakHospRate * 100 * (1 - hcExpansion)
  let vulnerable := districts.filter (fun d => decide ((3/5 : ℚ) < vulnerabilityIndex d))
  let equitySum := (vulnerable.map (fun d =>
    economicImpact * (1 - d.socioeconomic_index) * 2 +
      healthcareStrain * (1 - d.healthcare_capacity) * (1/2))).sum
  let equityImpact := equitySum / (equityDenominator districts : ℚ)
  { gdp_reduction_percent := economicImpact * 100
    unemployment_increase_percent := unemploymentImpact * 100
    business_closures_percent := economicImpact * 80
    mental_health_index := mentalHealthImpact * 10
    education_disruption_index := educationImpact * 10
    social_cohesion_impact := economicImpact * 5
    system_strain_index := healthcareStrain * 10
    non_covid_care_reduction_percent := healthcareStrain * 100
    vulnerable_populations_index := equityImpact * 10
    inequality_increase_percent := equityImpact * 50 }

/-- Python `max(0, min(100, x))` clamp used on every impact score. -/
def pyclamp (x : ℚ) : ℚ := max 0 (min 100 x)

/-- Impact scores record (simulation.py lines 544-550). -/
structure ImpactScores where
  health_score : ℚ
  economic_score : ℚ
  social_score : ℚ
  equity_score : ℚ
  overall_score : ℚ
  deriving Repr, DecidableEq, Inhabited

/-- `GovernmentDecisionSimulator._calculate_impact_scores`
(simulation.py lines 505-550). -/
def calcImpactScores (health : SimResults) (so : SocioImpact) : ImpactScores :=
  let h := pyclamp (100 - ((health.total_deaths : ℚ) / (health.city_population : ℚ) * 50000 +
    (health.peak_cases : ℚ) / (health.city_population : ℚ) * 5000))
  let e := pyclamp (100 - (so.gdp_reduction_percent * 2 + so.unemployment_increase_percent))
  let s := pyclamp (100 - (so.mental_health_index * 3 + so.education_disruption_index * 2 +
    so.social_cohesion_impact * 2))
  let q := pyclamp (100 - (so.vulnerable_populations_index * 5 +
    so.inequality_increase_percent * (1/2)))
  { health_score := h
    economic_score := e
    social_score := s
    equity_score := q
    overall_score := h * (2/5) + e * (1/4) + s * (1/5) + q * (3/20) }

/-- Result of simulating one policy decision
(`simulate_policy_impact`, simulation.py lines 377-437). -/
structure PolicyImpact where
  policy : PolicyDecision
  health_impact : SimResults
  socioeconomic_impact : SocioImpact
  impact_scores : ImpactScores
  deriving Repr, DecidableEq, Inhabited

/-- `GovernmentDecisionSimulator.simulate_policy_impact` (simulation.py lines
377-437).  The source calls `run_outbreak_simulation` with `virus_params=None`,
so a fresh random virus draw is made per call; that draw is the explicit
`virusDraw` argument here. -/
def simulatePolicyImpact (cityPop : ℤ) (districts : List District)
    (virusDraw : VirusParams) (pd : PolicyDecision) (days : ℕ) (c : ℤ) (now : ℤ) :
    PolicyImpact :=
  let iv := interventionParamsOf pd
  let health := run_outbreak_simulation cityPop districts virusDraw iv days c now
  let so := calcSocioImpact pd health cityPop districts
  { policy := pd
    health_impact := health
    socioeconomic_impact := so
    impact_scores := calcImpactScores health so }

/-! ## The policy endpoint (`routers/simulation.py`, `run_policy_simulation_endpoint`) -/

/-- One candidate of the endpoint's social-distancing sweep
(routers/simulation.py lines 846-858): the given social-distancing level with
every other dimension at its mildest catalog level. -/
def sweepBasePolicy (lvl : String) : PolicyDecision :=
  { social_distancing := some lvl
    masking := some "none"
    testing := some "minimal"
    contact_tracing := some "none"
    travel_restrictions := some "none"
    vaccination := some "none"
    economic_support := some "none"
    healthcare_capacity := some "baseline" }

/-- The candidate list the endpoint simulates when `available_policies`
contains `social_distancing` and fewer than three policies are available
(routers/simulation.py lines 843-894): the four-level sweep, in catalog order. -/
def sweepCandidates : List PolicyDecision :=
  ["none", "recommended", "required", "strict_lockdown"].map sweepBasePolicy

/-- The endpoint's `policy_outcomes` list (routers/simulation.py lines 896-932):
one `simulate_policy_impact` call per candidate, in candidate order.  Each call
makes its own random virus draw; the draws are passed as a parallel list. -/
def policyOutcomes (cityPop : ℤ) (districts : List District)
    (candidates : List PolicyDecision) (virusDraws : List VirusParams)
    (days : ℕ) (c : ℤ) (now : ℤ) : List PolicyImpact :=
  (candidates.zip virusDraws).map
    (fun p => simulatePolicyImpact cityPop districts p.2 p.1 days c now)

/-- Python's `max(xs, key=f)`: the first element attaining the maximal key,
`none` on the empty list (where Python raises `ValueError`). -/
def pyMaxBy {α : Type} (f : α → ℚ) : List α → Option α
  | [] => none
  | x :: xs => some (xs.foldl (fun b y => if f b < f y then y else b) x)

/-- The endpoint's optimal strategy (routers/simulation.py line 923):
`max(policy_outcomes, key=lambda x: x["impact_scores"]["overall_score"])`. -/
def optimalStrategy (outcomes : List PolicyImpact) : Option PolicyImpact :=
  pyMaxBy (fun o => o.impact_scores.overall_score) outcomes

/-- Whether a list of policy outcomes is sorted by overall score, descending. -/
def sortedByOverallDesc : List PolicyImpact → Bool
  | [] => true
  | [_] => true
  | x :: y :: rest =>
    decide (y.impact_scores.overall_score ≤ x.impact_scores.overall_score) &&
      sortedByOverallDesc (y :: rest)

/-! ## District generation rescaling and division guards -/

/-- The population-rescaling step of `BioDigitalTwin._generate_districts`
(simulation.py lines 76-79): every drawn district population is multiplied by
`city_population / total_drawn_population` and truncated to an integer. -/
def rescaleDistrictPopulations (cityPop : ℤ) (draftPops : List ℤ) : List ℤ :=
  draftPops.map (fun (p : ℤ) => pytrunc ((p : ℚ) * (cityPop : ℚ) / ((draftPops.sum : ℤ) : ℚ)))

/-- Checked division modelling Python's `/`, which raises `ZeroDivisionError`
on a zero denominator. -/
def pydiv (a b : ℚ) : Except Unit ℚ :=
  if b = 0 then Except.error () else Except.ok (a / b)

/-- The internal-exposure computation with its division by the district
population checked as Python evaluates it (simulation.py lines 192-197): there
is no `max(1, population)` guard in the source, so a zero district population
raises. -/
def internalExposuresChecked (v : VirusParams) (iv : InterventionParams)
    (dr0 : ℚ) (d : District) (s : DistrictState) : Except Unit ℤ :=
  match pydiv (s.susceptible : ℚ) (d.population : ℚ) with
  | Except.error e => Except.error e
  | Except.ok frac =>
    Except.ok (pytrunc ((s.infectious : ℚ) * dr0 / v.infectious_period_days *
      frac * (1 - iv.travel_restrictions)))

/-- A simulation result with every wall-clock date stamp erased. -/
def eraseDates (r : SimResults) : SimResults :=
  { r with daily_results := r.daily_results.map (fun s => { s with date := 0 }) }

/-! ## Validity predicates for the documented parameter ranges -/

/-- Virus parameters inside the ranges the source draws them from
(simulation.py lines 101-108): positive periods of at least one day, rates in
`[0,1]`, and a fatality rate small enough that the 1.5× overflow modifier keeps
hospital deaths within hospital outcomes. -/
def virusParamsOK (v : VirusParams) : Prop :=
  0 ≤ v.r0 ∧ 1 ≤ v.incubation_period_days ∧ 1 ≤ v.infectious_period_days ∧
    0 ≤ v.hospitalization_rate ∧ v.hospitalization_rate ≤ 1 ∧
    0 ≤ v.fatality_rate ∧ v.fatality_rate * (3/2) ≤ 1

/-- Intervention parameters on their documented `[0,1]` scales
(simulation.py lines 112-119). -/
def interventionParamsOK (iv : InterventionParams) : Prop :=
  0 ≤ iv.social_distancing ∧ iv.social_distancing ≤ 1 ∧
    0 ≤ iv.masking ∧ iv.masking ≤ 1 ∧
    0 ≤ iv.testing_rate ∧ iv.testing_rate ≤ 1 ∧
    0 ≤ iv.contact_tracing ∧ iv.contact_tracing ≤ 1 ∧
    0 ≤ iv.travel_restrictions ∧ iv.travel_restrictions ≤ 1 ∧
    0 ≤ iv.vaccination_campaign ∧ iv.vaccination_campaign ≤ 1

/-- District characteristics inside the generator's draw ranges
(simulation.py lines 50-62): nonnegative population, density factor at least
0.5, vaccination rate at most 1. -/
def districtOK (d : District) : Prop :=
  0 ≤ d.population ∧ (1/2 : ℚ) ≤ d.population_density_factor ∧ d.vaccination_rate ≤ 1

/-- All six compartments of a district state are nonnegative. -/
def stateNonneg (s : DistrictState) : Prop :=
  0 ≤ s.susceptible ∧ 0 ≤ s.exposed ∧ 0 ≤ s.infectious ∧
    0 ≤ s.hospitalized ∧ 0 ≤ s.recovered ∧ 0 ≤ s.deceased

instance (v : VirusParams) : Decidable (virusParamsOK v) := by
  unfold virusParamsOK
  infer_instance

instance (iv : InterventionParams) : Decidable (interventionParamsOK iv) := by
  unfold interventionParamsOK
  infer_instance

instance (d : District) : Decidable (districtOK d) := by
  unfold districtOK
  infer_instance

instance (s : DistrictState) : Decidable (stateNonneg s) := by
  unfold stateNonneg
  infer_instance

/-! ## Basic lemmas about the embedded primitives -/

theorem pytrunc_nonneg {q : ℚ} (h : 0 ≤ q) : 0 ≤ pytrunc q := by
  simp only [pytrunc, if_pos h]
  exact Int.floor_nonneg.mpr h

theorem pytrunc_cast_le {q : ℚ} (h : 0 ≤ q) : (pytrunc q : ℚ) ≤ q := by
  simp only [pytrunc, if_pos h]
  exact Int.floor_le q

theorem pytrunc_le_int {q : ℚ} {a : ℤ} (h0 : 0 ≤ q) (h : q ≤ (a : ℚ)) :
    pytrunc q ≤ a := by
  have := (pytrunc_cast_le h0).trans h
  exact_mod_cast this

theorem pyclamp_nonneg (x : ℚ) : 0 ≤ pyclamp x := le_max_left 0 _

theorem pyclamp_le_100 (x : ℚ) : pyclamp x ≤ 100 :=
  max_le (by norm_num) (min_le_left _ _)

/-! ## Concrete scenarios

Concrete cities, virus draws and interventions used to instantiate or refute
the claims.  Every drawn value lies inside the corresponding `random.uniform`
range of the source. -/

/-- A highly vulnerable district (vulnerability index 1.13). -/
def vulnDistrict : District :=
  { name := "District 1", population := 1000, healthcare_capacity := 3/10,
    population_density_factor := 2, socioeconomic_index := 1/5, vaccination_rate := 1/5 }

/-- A low-vulnerability district (vulnerability index 0.23). -/
def calmDistrict : District :=
  { name := "District 2", population := 1000, healthcare_capacity := 1,
    population_density_factor := 1/2, socioeconomic_index := 9/10, vaccination_rate := 7/10 }

/-- A three-district city of population 3000, most vulnerable district first
(the generator sorts districts by descending vulnerability). -/
def cexDistricts : List District := [vulnDistrict, calmDistrict, calmDistrict]

/-- A virus draw with a 5% hospitalization rate. -/
def cexVirus : VirusParams :=
  { r0 := 3/2, incubation_period_days := 2, infectious_period_days := 7,
    hospitalization_rate := 1/20, fatality_rate := 1/100 }

/-- No interventions at all. -/
def cexInterv : InterventionParams :=
  { social_distancing := 0, masking := 0, testing_rate := 0, contact_tracing := 0,
    travel_restrictions := 0, vaccination_campaign := 0 }

/-- A five-day run of the three-district city with 20 initial cases. -/
def cexRun : SimResults := run_outbreak_simulation 3000 cexDistricts cexVirus cexInterv 5 20 0

/-- A low-vulnerability district of population 10000 (vulnerability 0.23, so the
equity average ranges over no district). -/
def plainDistrict : District :=
  { name := "District 1", population := 10000, healthcare_capacity := 1,
    population_density_factor := 1/2, socioeconomic_index := 9/10, vaccination_rate := 7/10 }

/-- A homogeneous three-district city of population 30000. -/
def plainDistricts : List District := [plainDistrict, plainDistrict, plainDistrict]

/-- A virus draw with a short (2-day) incubation period. -/
def fastVirus : VirusParams :=
  { r0 := 3, incubation_period_days := 2, infectious_period_days := 7,
    hospitalization_rate := 1/10, fatality_rate := 1/100 }

/-- A virus draw with a long (6-day) incubation period. -/
def slowVirus : VirusParams :=
  { r0 := 3, incubation_period_days := 6, infectious_period_days := 7,
    hospitalization_rate := 1/10, fatality_rate := 1/100 }

/-- One independent virus draw per sweep candidate, as the endpoint makes one
`run_outbreak_simulation(virus_params=None)` call per candidate. -/
def c9Draws : List VirusParams := [fastVirus, slowVirus, slowVirus, slowVirus]

/-- The endpoint's outcome list for the plain city: the four-candidate
social-distancing sweep over one day with 600 initial cases. -/
def c9Outcomes : List PolicyImpact :=
  policyOutcomes 30000 plainDistricts sweepCandidates c9Draws 1 600 0

/-- A single-candidate outcome list used to instantiate the optimal-strategy
characterization. -/
def c9WitnessOutcomes : List PolicyImpact :=
  policyOutcomes 30000 plainDistricts sweepCandidates [fastVirus] 0 10 0

/-- The optimal strategy the endpoint reports on `c9WitnessOutcomes`. -/
def c9WitnessBest : PolicyImpact := (optimalStrategy c9WitnessOutcomes).getD default

/-- A policy decision running only a universal vaccination campaign. -/
def vaccOnlyDecision : PolicyDecision :=
  { sweepBasePolicy "none" with vaccination := some "universal_campaign" }

/-- One-day run of the plain city with zero initial cases under the universal
vaccination campaign. -/
def c10Run : SimResults :=
  run_outbreak_simulation 30000 plainDistricts fastVirus
    (interventionParamsOf vaccOnlyDecision) 1 0 0

/-- A policy decision whose social-distancing level is not in the catalog. -/
def unknownLevelDecision : PolicyDecision :=
  { sweepBasePolicy "none" with social_distancing := some "mandatory" }

/-- A district whose (rescaled) population is zero; reachable because district
populations are drawn as `int(population * uniform(0.02, 0.2))` and rescaled
with truncation. -/
def zeroPopDistrict : District :=
  { name := "District 1", population := 0, healthcare_capacity := 1/2,
    population_density_factor := 1, socioeconomic_index := 1/2, vaccination_rate := 1/2 }

/-! ## C4: monotone effect of social distancing on the global effective R0 -/

/-- C4: for every virus with `r0 > 0`, holding masking, testing rate, contact
tracing, travel restrictions (and the vaccination campaign) fixed, the global
effective R0 is strictly decreasing in the social-distancing value. -/
theorem c4_effectiveR0_strictly_decreasing_in_social_distancing
    (v : VirusParams) (iv : InterventionParams) (sd1 sd2 : ℚ)
    (hr0 : 0 < v.r0) (hsd : sd1 < sd2) :
    effectiveR0 v { iv with social_distancing := sd2 } <
      effectiveR0 v { iv with social_distancing := sd1 } := by
  simp only [effectiveR0]
  nlinarith [mul_pos hr0 (sub_pos.mpr hsd)]

/-- Witness: instantiating C4 at the default virus draw and the default
interventions, raising social distancing from 0.3 to 0.5 strictly lowers the
effective R0. -/
theorem c4_witness :
    effectiveR0 cexVirus { cexInterv with social_distancing := 1/2 } <
      effectiveR0 cexVirus { cexInterv with social_distancing := 3/10 } :=
  c4_effectiveR0_strictly_decreasing_in_social_distancing cexVirus cexInterv
    (3/10) (1/2) (by norm_num [cexVirus]) (by norm_num)

/-! ## C6: impact scores are clamped to [0,100] and overall is their weighted sum -/

/-- C6: for every completed simulation result and socioeconomic impact record,
each of the four component scores lies in `[0,100]`, the overall score equals
`0.4·health + 0.25·economic + 0.2·social + 0.15·equity`, and hence the overall
score also lies in `[0,100]`. -/
theorem c6_impact_scores_clamped_and_weighted
    (health : SimResults) (so : SocioImpact) :
    (0 ≤ (calcImpactScores health so).health_score ∧
      (calcImpactScores health so).health_score ≤ 100) ∧
    (0 ≤ (calcImpactScores health so).economic_score ∧
      (calcImpactScores health so).economic_score ≤ 100) ∧
    (0 ≤ (calcImpactScores health so).social_score ∧
      (calcImpactScores health so).social_score ≤ 100) ∧
    (0 ≤ (calcImpactScores health so).equity_score ∧
      (calcImpactScores health so).equity_score ≤ 100) ∧
    (calcImpactScores health so).overall_score =
      (calcImpactScores health so).health_score * (2/5) +
      (calcImpactScores health so).economic_score * (1/4) +
      (calcImpactScores health so).social_score * (1/5) +
      (calcImpactScores health so).equity_score * (3/20) ∧
    (0 ≤ (calcImpactScores health so).overall_score ∧
      (calcImpactScores health so).overall_score ≤ 100) := by
  simp only [calcImpactScores]
  refine ⟨⟨pyclamp_nonneg _, pyclamp_le_100 _⟩, ⟨pyclamp_nonneg _, pyclamp_le_100 _⟩,
    ⟨pyclamp_nonneg _, pyclamp_le_100 _⟩, ⟨pyclamp_nonneg _, pyclamp_le_100 _⟩, by trivial, ?_, ?_⟩
  · have h1 := pyclamp_nonneg (100 - ((health.total_deaths : ℚ) / (health.city_population : ℚ) * 50000 + (health.peak_cases : ℚ) / (health.city_population : ℚ) * 5000))
    have h2 := pyclamp_nonneg (100 - (so.gdp_reduction_percent * 2 + so.unemployment_increase_percent))
    have h3 := pyclamp_nonneg (100 - (so.mental_health_index * 3 + so.education_disruption_index * 2 + so.social_cohesion_impact * 2))
    have h4 := pyclamp_nonneg (100 - (so.vulnerable_populations_index * 5 + so.inequality_increase_percent * (1/2)))
    nlinarith
  · have h1 := pyclamp_le_100 (100 - ((health.total_deaths : ℚ) / (health.city_population : ℚ) * 50000 + (health.peak_cases : ℚ) / (health.city_population : ℚ) * 5000))
    have h2 := pyclamp_le_100 (100 - (so.gdp_reduction_percent * 2 + so.unemployment_increase_percent))
    have h3 := pyclamp_le_100 (100 - (so.mental_health_index * 3 + so.education_disruption_index * 2 + so.social_cohesion_impact * 2))
    have h4 := pyclamp_le_100 (100 - (so.vulnerable_populations_index * 5 + so.inequality_increase_percent * (1/2)))
    nlinarith

/-! ## C3: unknown policy levels are silently defaulted, not rejected -/

unseal Rat.mul Rat.add Rat.sub Rat.inv in
/-- Counterexample to C3: converting a decision whose social-distancing level
`"mandatory"` is not in the catalog does not fail — it yields exactly the same
intervention parameters as the level `"none"`, mapping the unknown level to the
0.0 default. -/
theorem c3_counterexample :
    interventionParamsOf unknownLevelDecision = interventionParamsOf (sweepBasePolicy "none") ∧
      (interventionParamsOf unknownLevelDecision).social_distancing = 0 := by
  decide

/-- C3 as amended: a level unknown to every catalog table is silently mapped to
each dimension's numeric fallback default (`0.0`, and `0.01` for testing); no
error of any kind is produced. -/
theorem c3_unknown_levels_silently_default (lvl : String)
    (h1 : socialDistancingOptions.find? (fun p => p.1 == lvl) = none)
    (h2 : maskingOptions.find? (fun p => p.1 == lvl) = none)
    (h3 : testingOptions.find? (fun p => p.1 == lvl) = none)
    (h4 : contactTracingOptions.find? (fun p => p.1 == lvl) = none)
    (h5 : travelRestrictionsOptions.find? (fun p => p.1 == lvl) = none)
    (h6 : vaccinationOptions.find? (fun p => p.1 == lvl) = none) :
    interventionParamsOf
        { social_distancing := some lvl, masking := some lvl, testing := some lvl,
          contact_tracing := some lvl, travel_restrictions := some lvl,
          vaccination := some lvl, economic_support := some lvl,
          healthcare_capacity := some lvl } =
      { social_distancing := 0, masking := 0, testing_rate := 1/100,
        contact_tracing := 0, travel_restrictions := 0, vaccination_campaign := 0 } := by
  simp [interventionParamsOf, policyLookup, h1, h2, h3, h4, h5, h6]

/-- Witness: the unknown level `"mandatory"` is defaulted on every dimension. -/
theorem c3_witness :
    interventionParamsOf
        { social_distancing := some "mandatory", masking := some "mandatory",
          testing := some "mandatory", contact_tracing := some "mandatory",
          travel_restrictions := some "mandatory", vaccination := some "mandatory",
          economic_support := some "mandatory", healthcare_capacity := some "mandatory" } =
      { social_distancing := 0, masking := 0, testing_rate := 1/100,
        contact_tracing := 0, travel_restrictions := 0, vaccination_campaign := 0 } :=
  c3_unknown_levels_silently_default "mandatory" (by decide) (by decide) (by decide)
    (by decide) (by decide) (by decide)

/-! ## C7: division-by-zero guards exist only for the equity average -/

unseal Rat.mul Rat.add Rat.sub Rat.inv in
/-- Counterexample to C7: the exposure ratio `susceptible / district_population`
has no `max(1, ·)` guard; evaluated at a district of population 0 it raises a
division-by-zero error. -/
theorem c7_counterexample :
    internalExposuresChecked cexVirus cexInterv 1 zeroPopDistrict default =
      Except.error () := by
  rfl

/-- C7 as amended: only the equity-impact average is guarded (its `or 1`
denominator is always at least 1); the per-district exposure ratio divides by
the district population unguarded — it evaluates normally exactly when that
population is nonzero and raises division-by-zero when it is zero. -/
theorem c7_only_equity_average_guarded :
    (∀ districts : List District, 1 ≤ equityDenominator districts) ∧
    (∀ (v : VirusParams) (iv : InterventionParams) (dr0 : ℚ) (d : District)
        (s : DistrictState), (d.population : ℚ) ≠ 0 →
      internalExposuresChecked v iv dr0 d s =
        Except.ok (internalExposures v iv dr0 d s)) ∧
    (∀ (v : VirusParams) (iv : InterventionParams) (dr0 : ℚ) (d : District)
        (s : DistrictState), (d.population : ℚ) = 0 →
      internalExposuresChecked v iv dr0 d s = Except.error ()) := by
  refine ⟨?_, ?_, ?_⟩
  · intro districts
    simp only [equityDenominator, orOne]
    split
    · exact le_refl 1
    · omega
  · intro v iv dr0 d s h
    simp [internalExposuresChecked, pydiv, h, internalExposures]
  · intro v iv dr0 d s h
    simp [internalExposuresChecked, pydiv, h]

/-- Witness: at a district of population 1000 the checked exposure computation
succeeds with the unguarded value. -/
theorem c7_witness :
    internalExposuresChecked cexVirus cexInterv 1 vulnDistrict default =
      Except.ok (internalExposures cexVirus cexInterv 1 vulnDistrict default) :=
  c7_only_equity_average_guarded.2.1 cexVirus cexInterv 1 vulnDistrict default
    (by norm_num [vulnDistrict])

/-! ## C8: the rescaling step undershoots the city population by up to one per district -/

unseal Rat.mul Rat.add Rat.sub Rat.inv in
/-- Counterexample to C8: rescaling three drafted populations of 33 to a city
population of 100 yields 33+33+33 = 99, not 100 — truncation loses the
fractional parts. -/
theorem c8_counterexample :
    (rescaleDistrictPopulations 100 [33, 33, 33]).sum = 99 ∧ (99 : ℤ) ≠ 100 := by
  decide

/-- C8 as amended: after the rescaling step the district populations sum to at
most the city population, and to at least the city population minus the number
of districts (one truncated unit lost per district at worst). -/
theorem c8_rescaled_sum_within_district_count (P : ℤ) (pops : List ℤ)
    (hP : 0 ≤ P) (hpos : 0 < pops.sum) (hnn : ∀ p ∈ pops, 0 ≤ p) :
    (rescaleDistrictPopulations P pops).sum ≤ P ∧
      P - pops.length ≤ (rescaleDistrictPopulations P pops).sum := by
  have hT : (0 : ℚ) < ((pops.sum : ℤ) : ℚ) := by exact_mod_cast hpos
  have key : ∀ l : List ℤ, (∀ p ∈ l, (0 : ℤ) ≤ p) →
      (((l.map (fun (p : ℤ) => pytrunc ((p : ℚ) * (P : ℚ) / ((pops.sum : ℤ) : ℚ)))).sum : ℚ) ≤
        (l.map (fun (p : ℤ) => (p : ℚ) * (P : ℚ) / ((pops.sum : ℤ) : ℚ))).sum) ∧
      ((l.map (fun (p : ℤ) => (p : ℚ) * (P : ℚ) / ((pops.sum : ℤ) : ℚ))).sum - l.length ≤
        ((l.map (fun (p : ℤ) => pytrunc ((p : ℚ) * (P : ℚ) / ((pops.sum : ℤ) : ℚ)))).sum : ℚ)) := by
    intro l hl
    induction l with
    | nil => simp
    | cons a l ih =>
      have ha : (0 : ℤ) ≤ a := hl a (List.mem_cons_self a l)
      have hrest := ih (fun p hp => hl p (List.mem_cons_of_mem a hp))
      have harg : 0 ≤ (a : ℚ) * (P : ℚ) / ((pops.sum : ℤ) : ℚ) := by
        apply div_nonneg (mul_nonneg ?_ ?_) hT.le
        · exact_mod_cast ha
        · exact_mod_cast hP
      have hub := pytrunc_cast_le harg
      have hfl : (pytrunc ((a : ℚ) * (P : ℚ) / ((pops.sum : ℤ) : ℚ)) : ℚ) =
          (⌊(a : ℚ) * (P : ℚ) / ((pops.sum : ℤ) : ℚ)⌋ : ℚ) := by
        rw [pytrunc, if_pos harg]
      have hlb : (a : ℚ) * (P : ℚ) / ((pops.sum : ℤ) : ℚ) - 1 <
          (pytrunc ((a : ℚ) * (P : ℚ) / ((pops.sum : ℤ) : ℚ)) : ℚ) := by
        rw [hfl]
        exact Int.sub_one_lt_floor _
      constructor
      · rw [List.map_cons, List.sum_cons, List.map_cons, List.sum_cons, Int.cast_add]
        exact add_le_add hub hrest.1
      · rw [List.map_cons, List.sum_cons, List.map_cons, List.sum_cons, Int.cast_add,
          List.length_cons]
        have hlen : ((l.length + 1 : ℕ) : ℚ) = (l.length : ℚ) + 1 := by exact_mod_cast rfl
        rw [hlen]
        have := hrest.2
        linarith
  have hmain := key pops hnn
  have hfactor : (fun p : ℤ => (p : ℚ) * (P : ℚ) / ((pops.sum : ℤ) : ℚ)) =
      fun p : ℤ => (p : ℚ) * ((P : ℚ) / ((pops.sum : ℤ) : ℚ)) := by
    funext p
    ring
  have hsummap : ∀ (m : List ℤ) (cc : ℚ),
      (m.map (fun p : ℤ => (p : ℚ) * cc)).sum = ((m.sum : ℤ) : ℚ) * cc := by
    intro m cc
    induction m with
    | nil => simp
    | cons b bs ihb =>
      rw [List.map_cons, List.sum_cons, ihb, List.sum_cons]
      have : (((b + bs.sum : ℤ)) : ℚ) = (b : ℚ) + ((bs.sum : ℤ) : ℚ) := by exact_mod_cast rfl
      rw [this, add_mul]
  have hPexact : (pops.map (fun p : ℤ => (p : ℚ) * (P : ℚ) / ((pops.sum : ℤ) : ℚ))).sum =
      (P : ℚ) := by
    rw [hfactor, hsummap, mul_comm]
    exact div_mul_cancel₀ _ hT.ne'
  rw [hPexact] at hmain
  constructor
  · have := hmain.1
    rw [rescaleDistrictPopulations]
    exact_mod_cast this
  · have := hmain.2
    rw [rescaleDistrictPopulations]
    exact_mod_cast this

/-- Witness: rescaling 20, 30, 40 to a city population of 100 lands within
three of 100 and never above it. -/
theorem c8_witness :
    (rescaleDistrictPopulations 100 [20, 30, 40]).sum ≤ 100 ∧
      (100 : ℤ) - 3 ≤ (rescaleDistrictPopulations 100 [20, 30, 40]).sum :=
  c8_rescaled_sum_within_district_count 100 [20, 30, 40] (by norm_num) (by decide)
    (by decide)

/-! ## C10: total cases count vaccinated never-infected people -/

set_option maxRecDepth 4000 in
unseal Rat.mul Rat.add Rat.sub Rat.inv in
/-- C10: for every run `total_cases` is the final day's infectious + recovered
+ deceased; and in the concrete vaccination-only run with zero initial cases
the vaccinated flow from susceptible straight into recovered makes
`total_cases` equal 210 even though exposed and infectious are zero on every
day — total cases exceed the number of people ever exposed or infected. -/
theorem c10_total_cases_counts_vaccinated :
    (∀ (cityPop : ℤ) (districts : List District) (v : VirusParams)
        (iv : InterventionParams) (days : ℕ) (c now : ℤ),
      (run_outbreak_simulation cityPop districts v iv days c now).total_cases =
        ((run_outbreak_simulation cityPop districts v iv days c now).daily_results.getLastD
            default).total_infectious +
          ((run_outbreak_simulation cityPop districts v iv days c now).daily_results.getLastD
            default).total_recovered +
          ((run_outbreak_simulation cityPop districts v iv days c now).daily_results.getLastD
            default).total_deceased) ∧
    (c10Run.total_cases = 210 ∧
      c10Run.daily_results.all
        (fun d => d.total_exposed == 0 && d.total_infectious == 0) = true) := by
  constructor
  · intro cityPop districts v iv days c now
    rfl
  · decide

/-! ## C5: determinism holds for every field except the wall-clock date stamp -/

theorem runDays_dateless (v : VirusParams) (iv : InterventionParams) (effR0 : ℚ)
    (now1 now2 : ℤ) : ∀ (n : ℕ) (st : SimState),
    (runDays v iv effR0 now1 n st).map (fun s => { s with date := 0 }) =
      (runDays v iv effR0 now2 n st).map (fun s => { s with date := 0 }) := by
  intro n
  induction n with
  | zero => intro st; rfl
  | succ n ih =>
    intro st
    simp only [runDays, List.map_cons]
    congr 1
    split
    · rfl
    · exact ih _

theorem map_of_dateless {l1 l2 : List DailySummary}
    (h : l1.map (fun s => { s with date := 0 }) = l2.map (fun s => { s with date := 0 }))
    {α : Type} (g : DailySummary → α) (hg : ∀ s, g { s with date := 0 } = g s) :
    l1.map g = l2.map g := by
  have hcomp : (g ∘ fun s : DailySummary => { s with date := 0 }) = g := funext hg
  rw [← hcomp, ← List.map_map, ← List.map_map, h]

theorem getLastD_map {α β : Type} (f : α → β) :
    ∀ (l : List α) (d : α), (l.map f).getLastD (f d) = f (l.getLastD d) := by
  intro l
  induction l with
  | nil => intro d; rfl
  | cons a l ih =>
    intro d
    rw [List.map_cons, List.getLastD_cons, List.getLastD_cons]
    exact ih a

/-- C5 as amended: two runs with identical inputs (city model, virus draw,
interventions, horizon, initial cases — i.e. identical seed for every random
draw) agree on every field of every daily snapshot and of the summary except
the `date` field, which reflects the wall-clock time `now` at which the run
happens rather than any input or seed. -/
theorem c5_deterministic_except_date (cityPop : ℤ) (districts : List District)
    (v : VirusParams) (iv : InterventionParams) (days : ℕ) (c : ℤ) (now1 now2 : ℤ) :
    ((run_outbreak_simulation cityPop districts v iv days c now1).daily_results.map
        (fun s => { s with date := 0 }) =
      (run_outbreak_simulation cityPop districts v iv days c now2).daily_results.map
        (fun s => { s with date := 0 })) ∧
    (run_outbreak_simulation cityPop districts v iv days c now1).effective_r0 =
      (run_outbreak_simulation cityPop districts v iv days c now2).effective_r0 ∧
    (run_outbreak_simulation cityPop districts v iv days c now1).simulation_days =
      (run_outbreak_simulation cityPop districts v iv days c now2).simulation_days ∧
    (run_outbreak_simulation cityPop districts v iv days c now1).peak_cases =
      (run_outbreak_simulation cityPop districts v iv days c now2).peak_cases ∧
    (run_outbreak_simulation cityPop districts v iv days c now1).peak_hospitalizations =
      (run_outbreak_simulation cityPop districts v iv days c now2).peak_hospitalizations ∧
    (run_outbreak_simulation cityPop districts v iv days c now1).total_cases =
      (run_outbreak_simulation cityPop districts v iv days c now2).total_cases ∧
    (run_outbreak_simulation cityPop districts v iv days c now1).total_deaths =
      (run_outbreak_simulation cityPop districts v iv days c now2).total_deaths ∧
    (run_outbreak_simulation cityPop districts v iv days c now1).city_population =
      (run_outbreak_simulation cityPop districts v iv days c now2).city_population := by
  have hdaily :
      (run_outbreak_simulation cityPop districts v iv days c now1).daily_results.map
          (fun s => { s with date := 0 }) =
        (run_outbreak_simulation cityPop districts v iv days c now2).daily_results.map
          (fun s => { s with date := 0 }) := by
    simp only [run_outbreak_simulation, List.map_cons]
    congr 1
    exact runDays_dateless v iv (effectiveR0 v iv) now1 now2 days
      (initState cityPop districts c)
  refine ⟨hdaily, rfl, ?_, ?_, ?_, ?_, ?_, rfl⟩
  · show (run_outbreak_simulation cityPop districts v iv days c now1).daily_results.length =
      (run_outbreak_simulation cityPop districts v iv days c now2).daily_results.length
    have := congrArg List.length hdaily
    simpa using this
  · show listMaxZ ((run_outbreak_simulation cityPop districts v iv days c now1).daily_results.map
        (fun s => s.total_infectious)) = _
    exact congrArg listMaxZ
      (map_of_dateless hdaily (fun s => s.total_infectious) (fun s => rfl))
  · exact congrArg listMaxZ
      (map_of_dateless hdaily (fun s => s.total_hospitalized) (fun s => rfl))
  · have e1 := getLastD_map (fun s : DailySummary => { s with date := 0 })
      (run_outbreak_simulation cityPop districts v iv days c now1).daily_results default
    have e2 := getLastD_map (fun s : DailySummary => { s with date := 0 })
      (run_outbreak_simulation cityPop districts v iv days c now2).daily_results default
    have hmid :
        ((run_outbreak_simulation cityPop districts v iv days c now1).daily_results.map
            (fun s => { s with date := 0 })).getLastD
          ({ (default : DailySummary) with date := 0 }) =
        ((run_outbreak_simulation cityPop districts v iv days c now2).daily_results.map
            (fun s => { s with date := 0 })).getLastD
          ({ (default : DailySummary) with date := 0 }) := by
      rw [hdaily]
    have hlast := e1.symm.trans (hmid.trans e2)
    have h1 : ((run_outbreak_simulation cityPop districts v iv days c now1).daily_results.getLastD
          default).total_infectious =
        ((run_outbreak_simulation cityPop districts v iv days c now2).daily_results.getLastD
          default).total_infectious := by
      have hx := congrArg DailySummary.total_infectious hlast
      exact hx
    have h2 : ((run_outbreak_simulation cityPop districts v iv days c now1).daily_results.getLastD
          default).total_recovered =
        ((run_outbreak_simulation cityPop districts v iv days c now2).daily_results.getLastD
          default).total_recovered := by
      have hx := congrArg DailySummary.total_recovered hlast
      exact hx
    have h3 : ((run_outbreak_simulation cityPop districts v iv days c now1).daily_results.getLastD
          default).total_deceased =
        ((run_outbreak_simulation cityPop districts v iv days c now2).daily_results.getLastD
          default).total_deceased := by
      have hx := congrArg DailySummary.total_deceased hlast
      exact hx
    show ((run_outbreak_simulation cityPop districts v iv days c now1).daily_results.getLastD
          default).total_infectious +
        ((run_outbreak_simulation cityPop districts v iv days c now1).daily_results.getLastD
          default).total_recovered +
        ((run_outbreak_simulation cityPop districts v iv days c now1).daily_results.getLastD
          default).total_deceased =
      ((run_outbreak_simulation cityPop districts v iv days c now2).daily_results.getLastD
          default).total_infectious +
        ((run_outbreak_simulation cityPop districts v iv days c now2).daily_results.getLastD
          default).total_recovered +
        ((run_outbreak_simulation cityPop districts v iv days c now2).daily_results.getLastD
          default).total_deceased
    rw [h1, h2, h3]
  · have e1 := getLastD_map (fun s : DailySummary => { s with date := 0 })
      (run_outbreak_simulation cityPop districts v iv days c now1).daily_results default
    have e2 := getLastD_map (fun s : DailySummary => { s with date := 0 })
      (run_outbreak_simulation cityPop districts v iv days c now2).daily_results default
    have hmid :
        ((run_outbreak_simulation cityPop districts v iv days c now1).daily_results.map
            (fun s => { s with date := 0 })).getLastD
          ({ (default : DailySummary) with date := 0 }) =
        ((run_outbreak_simulation cityPop districts v iv days c now2).daily_results.map
            (fun s => { s with date := 0 })).getLastD
          ({ (default : DailySummary) with date := 0 }) := by
      rw [hdaily]
    have hlast := e1.symm.trans (hmid.trans e2)
    have h3 : ((run_outbreak_simulation cityPop districts v iv days c now1).daily_results.getLastD
          default).total_deceased =
        ((run_outbreak_simulation cityPop districts v iv days c now2).daily_results.getLastD
          default).total_deceased := by
      have hx := congrArg DailySummary.total_deceased hlast
      exact hx
    exact h3

/-- A zero-day, zero-case run performed at wall-clock day 0. -/
def c5RunA : SimResults := run_outbreak_simulation 3000 cexDistricts cexVirus cexInterv 0 0 0

/-- The same run performed one day later. -/
def c5RunB : SimResults := run_outbreak_simulation 3000 cexDistricts cexVirus cexInterv 0 0 1

unseal Rat.mul Rat.add Rat.sub Rat.inv in
/-- Counterexample to C5: two runs with identical inputs and identical random
draws performed at different wall-clock times produce different output — the
`date` field of the daily snapshots differs. -/
theorem c5_counterexample : c5RunA ≠ c5RunB := by
  decide

/-! ## C9: the outcome list is unsorted; the optimal strategy is the max, not the head -/

theorem pyMaxBy_foldl_spec {α : Type} (f : α → ℚ) :
    ∀ (xs : List α) (x : α),
      (xs.foldl (fun b y => if f b < f y then y else b) x = x ∨
        xs.foldl (fun b y => if f b < f y then y else b) x ∈ xs) ∧
      f x ≤ f (xs.foldl (fun b y => if f b < f y then y else b) x) ∧
      ∀ y ∈ xs, f y ≤ f (xs.foldl (fun b y => if f b < f y then y else b) x) := by
  intro xs
  induction xs with
  | nil =>
    intro x
    refine ⟨Or.inl rfl, le_refl _, ?_⟩
    intro y hy
    cases hy
  | cons y ys ih =>
    intro x
    rw [List.foldl_cons]
    by_cases hxy : f x < f y
    · rw [if_pos hxy]
      obtain ⟨hmem, hle, hall⟩ := ih y
      refine ⟨?_, ?_, ?_⟩
      · rcases hmem with h | h
        · refine Or.inr ?_
          rw [h]
          exact List.mem_cons_self y ys
        · exact Or.inr (List.mem_cons_of_mem y h)
      · exact le_trans (le_of_lt hxy) hle
      · intro z hz
        rcases List.mem_cons.mp hz with h | h
        · rw [h]
          exact hle
        · exact hall z h
    · rw [if_neg hxy]
      obtain ⟨hmem, hle, hall⟩ := ih x
      refine ⟨?_, ?_, ?_⟩
      · rcases hmem with h | h
        · exact Or.inl h
        · exact Or.inr (List.mem_cons_of_mem y h)
      · exact hle
      · intro z hz
        rcases List.mem_cons.mp hz with h | h
        · rw [h]
          exact le_trans (le_of_not_lt hxy) hle
        · exact hall z h

/-- C9 as amended: the endpoint's outcome list is left in candidate-generation
order (it is not sorted); the reported optimal strategy is computed by Python
`max` over the overall scores, so whenever it exists it is an element of the
outcome list whose overall score is maximal (the first such element in
generation order) — not the head of a sorted list. -/
theorem c9_optimal_strategy_attains_max (outcomes : List PolicyImpact)
    (b : PolicyImpact) (h : optimalStrategy outcomes = some b) :
    b ∈ outcomes ∧ ∀ o ∈ outcomes,
      o.impact_scores.overall_score ≤ b.impact_scores.overall_score := by
  cases outcomes with
  | nil => simp [optimalStrategy, pyMaxBy] at h
  | cons x xs =>
    simp only [optimalStrategy, pyMaxBy, Option.some.injEq] at h
    obtain ⟨hmem, hle, hall⟩ :=
      pyMaxBy_foldl_spec (fun o => o.impact_scores.overall_score) xs x
    constructor
    · rcases hmem with hh | hh
      · rw [← h, hh]
        exact List.mem_cons_self x xs
      · rw [← h]
        exact List.mem_cons_of_mem x hh
    · intro o ho
      rcases List.mem_cons.mp ho with hh | hh
      · rw [hh, ← h]
        exact hle
      · rw [← h]
        exact hall o hh

set_option maxRecDepth 8000 in
unseal Rat.mul Rat.add Rat.sub Rat.inv in
/-- Counterexample to C9: on the concrete one-day sweep the outcome list's
overall scores are 80, 83.15, 67.775, 62.4 — not sorted descending — and the
reported optimal strategy (the max, the second outcome) is not the head of the
list. -/
theorem c9_counterexample :
    sortedByOverallDesc c9Outcomes = false ∧
      optimalStrategy c9Outcomes ≠ c9Outcomes.head? := by
  constructor
  · decide
  · decide

set_option maxRecDepth 8000 in
unseal Rat.mul Rat.add Rat.sub Rat.inv in
/-- Witness: on a concrete single-candidate run the reported optimal strategy
is an element of the outcome list. -/
theorem c9_witness : c9WitnessBest ∈ c9WitnessOutcomes :=
  (c9_optimal_strategy_attains_max c9WitnessOutcomes c9WitnessBest (by decide)).1

/-! ## C1: per-district conservation holds at seeding and drifts by the
truncation residual thereafter -/

theorem seedAux_map_sum (V : ℚ) (c : ℤ) :
    ∀ (ds : List District) (rem : ℤ),
      ((seedAux V c ds rem).1).map stateSum = ds.map (fun d => d.population) := by
  intro ds
  induction ds with
  | nil => intro rem; rfl
  | cons d rest ih =>
    intro rem
    simp only [seedAux, List.map_cons]
    congr 1
    · simp only [stateSum]
      ring
    · exact ih _

theorem bumpHead_map_sum (rem : ℤ) (states : List DistrictState) :
    (bumpHead rem states).map stateSum = states.map stateSum := by
  cases states with
  | nil => rfl
  | cons s rest =>
    simp only [bumpHead, List.map_cons]
    congr 1
    simp only [stateSum]
    ring

/-- C1 as amended: each district's compartment sum equals its population
exactly at seeding (day 0); each subsequent day changes a district's sum by
exactly `new_hospitalized + new_recovered_direct − new_outcomes`, the
truncation residual of splitting the day's outcomes into hospital admissions
and direct recoveries (the hospitalized-pool flows cancel exactly, as do
exposures and vaccinations).  This residual is what the counterexample
accumulates past the claimed ±(number of districts) tolerance. -/
theorem c1_conservation_exact_at_seeding_and_residual_per_step :
    (∀ (districts : List District) (c : ℤ),
      (seedStates districts c).map stateSum = districts.map (fun d => d.population)) ∧
    (∀ (v : VirusParams) (iv : InterventionParams) (effR0 : ℚ)
        (pairs : List (District × DistrictState)) (i : ℕ),
      stateSum (stepOne v iv effR0 pairs i) =
        stateSum (pairs.getD i default).2 +
          (newHospitalizedOf v (pairs.getD i default).1 (pairs.getD i default).2 +
            newRecoveredDirectOf v (pairs.getD i default).2 -
            newOutcomesOf v (pairs.getD i default).2)) := by
  constructor
  · intro districts c
    simp only [seedStates]
    split
    · rw [bumpHead_map_sum, seedAux_map_sum]
    · rw [seedAux_map_sum]
  · intro v iv effR0 pairs i
    simp only [stepOne, stateSum]
    ring

/-- Per-district sum of the six compartments of a daily snapshot. -/
def snapshotSum (sn : DistrictSnapshot) : ℤ :=
  sn.susceptible + sn.exposed + sn.infectious + sn.hospitalized + sn.recovered + sn.deceased

set_option maxRecDepth 4000 in
unseal Rat.mul Rat.add Rat.sub Rat.inv in
/-- Counterexample to C1: in the concrete three-district run, by day 5 the
most vulnerable district's compartments sum to 996 against a population of
1000 — a deviation of 4, outside the claimed tolerance of ±3 (the number of
districts). -/
theorem c1_counterexample :
    snapshotSum ((cexRun.daily_results.getD 5 default).districts.getD 0 default) = 996 ∧
      (cexDistricts.getD 0 default).population = 1000 ∧
      cexDistricts.length = 3 ∧
      ¬ (((996 : ℤ) - 1000).natAbs ≤ cexDistricts.length) := by
  refine ⟨by decide, by decide, by decide, by decide⟩

/-! ## C2: compartments stay nonnegative only under valid seeding; there is no clamping -/

theorem getD_mem_of_lt {α : Type} [Inhabited α] (l : List α) (i : ℕ) (h : i < l.length) :
    l.getD i default ∈ l := by
  rw [List.getD_eq_getElem?_getD, List.getElem?_eq_getElem h, Option.getD_some]
  exact List.getElem?_mem (List.getElem?_eq_getElem h)

theorem getD_default_of_le {α : Type} [Inhabited α] (l : List α) (i : ℕ)
    (h : l.length ≤ i) : l.getD i default = default := by
  rw [List.getD_eq_getElem?_getD, List.getElem?_eq_none h]
  rfl

theorem effectiveR0_nonneg (v : VirusParams) (iv : InterventionParams)
    (hv : virusParamsOK v) (hiv : interventionParamsOK iv) : 0 ≤ effectiveR0 v iv := by
  obtain ⟨hr0, -, -, -, -, -, -⟩ := hv
  obtain ⟨hsd0, hsd1, hm0, hm1, ht0, ht1, hct0, hct1, htr0, htr1, -, -⟩ := hiv
  rw [effectiveR0]
  apply mul_nonneg hr0
  nlinarith [mul_nonneg ht0 hct0, mul_le_one₀ ht1 hct0 hct1]

theorem districtEffectiveR0_nonneg (effR0 : ℚ) (d : District)
    (heff : 0 ≤ effR0) (hd : districtOK d) : 0 ≤ districtEffectiveR0 effR0 d := by
  obtain ⟨-, hdf, hvr⟩ := hd
  rw [districtEffectiveR0]
  apply mul_nonneg heff
  nlinarith

theorem internalExposures_nonneg (v : VirusParams) (iv : InterventionParams)
    (dr0 : ℚ) (d : District) (s : DistrictState)
    (hinfp : 1 ≤ v.infectious_period_days) (htr : iv.travel_restrictions ≤ 1)
    (hdr0 : 0 ≤ dr0) (hpop : 0 ≤ d.population) (hs : stateNonneg s) :
    0 ≤ internalExposures v iv dr0 d s := by
  apply pytrunc_nonneg
  have hI : (0 : ℚ) ≤ (s.infectious : ℚ) := by exact_mod_cast hs.2.2.1
  have hS : (0 : ℚ) ≤ (s.susceptible : ℚ) := by exact_mod_cast hs.1
  have hP : (0 : ℚ) ≤ (d.population : ℚ) := by exact_mod_cast hpop
  have hinfp0 : (0 : ℚ) ≤ v.infectious_period_days := le_trans zero_le_one hinfp
  apply mul_nonneg (mul_nonneg (div_nonneg (mul_nonneg hI hdr0) hinfp0) (div_nonneg hS hP))
  linarith

theorem crossInfection_nonneg (v : VirusParams) (dr0 : ℚ) (sus pop : ℤ) (mob : ℚ)
    (otherI : ℤ) (hinfp : 1 ≤ v.infectious_period_days) (hdr0 : 0 ≤ dr0)
    (hsus : 0 ≤ sus) (hpop : 0 ≤ pop) (hmob : 0 ≤ mob) (hoI : 0 ≤ otherI) :
    0 ≤ crossInfection v dr0 sus pop mob otherI := by
  apply pytrunc_nonneg
  have hI : (0 : ℚ) ≤ (otherI : ℚ) := by exact_mod_cast hoI
  have hS : (0 : ℚ) ≤ (sus : ℚ) := by exact_mod_cast hsus
  have hP : (0 : ℚ) ≤ (pop : ℚ) := by exact_mod_cast hpop
  have hinfp0 : (0 : ℚ) ≤ v.infectious_period_days := le_trans zero_le_one hinfp
  apply mul_nonneg
  apply mul_nonneg
  apply mul_nonneg (div_nonneg (mul_nonneg hI hdr0) hinfp0) (div_nonneg hS hP)
  exact hmob
  norm_num

theorem foldl_add_nonneg {g : ℕ → ℤ} :
    ∀ (js : List ℕ) (a : ℤ), 0 ≤ a → (∀ j ∈ js, 0 ≤ g j) →
      0 ≤ js.foldl (fun acc j => acc + g j) a := by
  intro js
  induction js with
  | nil => intro a ha _; exact ha
  | cons j js ih =>
    intro a ha hall
    rw [List.foldl_cons]
    exact ih _ (add_nonneg ha (hall j (List.mem_cons_self j js)))
      (fun k hk => hall k (List.mem_cons_of_mem j hk))

theorem state_getD_infectious_nonneg (pairs : List (District × DistrictState))
    (hall : ∀ p ∈ pairs, stateNonneg p.2) (j : ℕ) :
    0 ≤ (pairs.getD j default).2.infectious := by
  by_cases hj : j < pairs.length
  · exact (hall _ (getD_mem_of_lt pairs j hj)).2.2.1
  · rw [getD_default_of_le pairs j (le_of_not_lt hj)]
    exact le_refl 0

theorem externalExposures_nonneg (v : VirusParams) (dr0 mob : ℚ) (sus pop : ℤ)
    (pairs : List (District × DistrictState)) (i : ℕ)
    (hinfp : 1 ≤ v.infectious_period_days) (hdr0 : 0 ≤ dr0)
    (hsus : 0 ≤ sus) (hpop : 0 ≤ pop) (hmob : 0 ≤ mob)
    (hall : ∀ p ∈ pairs, stateNonneg p.2) :
    0 ≤ externalExposures v dr0 mob sus pop pairs i := by
  rw [externalExposures]
  apply foldl_add_nonneg _ _ (le_refl 0)
  intro j hj
  exact crossInfection_nonneg v dr0 sus pop mob _ hinfp hdr0 hsus hpop hmob
    (state_getD_infectious_nonneg pairs hall j)

theorem hospModifier_nonneg (d : District) (s : DistrictState) : 0 ≤ hospModifier d s := by
  rw [hospModifier]
  split <;> norm_num

theorem fatModifier_nonneg (d : District) (s : DistrictState) : 0 ≤ fatModifier d s := by
  rw [fatModifier]
  split <;> norm_num

theorem stepOne_nonneg (v : VirusParams) (iv : InterventionParams) (effR0 : ℚ)
    (pairs : List (District × DistrictState)) (i : ℕ)
    (hv : virusParamsOK v) (hiv : interventionParamsOK iv) (heff : 0 ≤ effR0)
    (hall : ∀ p ∈ pairs, districtOK p.1 ∧ stateNonneg p.2)
    (hi : i < pairs.length) :
    stateNonneg (stepOne v iv effR0 pairs i) := by
  obtain ⟨hr0, hincub, hinfp, hhr0, hhr1, hfr0, hfr1⟩ := hv
  obtain ⟨hsd0, hsd1, hm0, hm1, ht0, ht1, hct0, hct1, htr0, htr1, hvc0, hvc1⟩ := hiv
  obtain ⟨hdOK, hsOK⟩ := hall _ (getD_mem_of_lt pairs i hi)
  simp only [stepOne, stateNonneg]
  set d := (pairs.getD i default).1 with hd
  set s := (pairs.getD i default).2 with hs
  obtain ⟨hS, hE, hI, hH, hR, hD⟩ := hsOK
  have hpop : 0 ≤ d.population := hdOK.1
  have hdr0 : 0 ≤ districtEffectiveR0 effR0 d := districtEffectiveR0_nonneg _ _ heff hdOK
  have hmob : (0 : ℚ) ≤ 7/10 * (1 - iv.travel_restrictions) := by nlinarith
  have hSQ : (0 : ℚ) ≤ (s.susceptible : ℚ) := by exact_mod_cast hS
  have hEQ : (0 : ℚ) ≤ (s.exposed : ℚ) := by exact_mod_cast hE
  have hIQ : (0 : ℚ) ≤ (s.infectious : ℚ) := by exact_mod_cast hI
  have hHQ : (0 : ℚ) ≤ (s.hospitalized : ℚ) := by exact_mod_cast hH
  have hincub0 : (0 : ℚ) ≤ v.incubation_period_days := le_trans zero_le_one hincub
  have hinfp0 : (0 : ℚ) ≤ v.infectious_period_days := le_trans zero_le_one hinfp
  have hint : 0 ≤ internalExposures v iv (districtEffectiveR0 effR0 d) d s :=
    internalExposures_nonneg v iv _ d s hinfp htr1 hdr0 hpop ⟨hS, hE, hI, hH, hR, hD⟩
  have hext : 0 ≤ externalExposures v (districtEffectiveR0 effR0 d)
      (7/10 * (1 - iv.travel_restrictions)) s.susceptible d.population pairs i :=
    externalExposures_nonneg v _ _ _ _ pairs i hinfp hdr0 hS hpop hmob
      (fun p hp => (hall p hp).2)
  have htot0 : 0 ≤ min (internalExposures v iv (districtEffectiveR0 effR0 d) d s +
      externalExposures v (districtEffectiveR0 effR0 d)
        (7/10 * (1 - iv.travel_restrictions)) s.susceptible d.population pairs i)
      s.susceptible := le_min (add_nonneg hint hext) hS
  have htotle : min (internalExposures v iv (districtEffectiveR0 effR0 d) d s +
      externalExposures v (districtEffectiveR0 effR0 d)
        (7/10 * (1 - iv.travel_restrictions)) s.susceptible d.population pairs i)
      s.susceptible ≤ s.susceptible := min_le_right _ _
  have hsus1 : 0 ≤ s.susceptible - min (internalExposures v iv (districtEffectiveR0 effR0 d) d s +
      externalExposures v (districtEffectiveR0 effR0 d)
        (7/10 * (1 - iv.travel_restrictions)) s.susceptible d.population pairs i)
      s.susceptible := sub_nonneg.mpr htotle
  have hsus1Q : (0 : ℚ) ≤ ((s.susceptible - min (internalExposures v iv
      (districtEffectiveR0 effR0 d) d s + externalExposures v (districtEffectiveR0 effR0 d)
        (7/10 * (1 - iv.travel_restrictions)) s.susceptible d.population pairs i)
      s.susceptible : ℤ) : ℚ) := by exact_mod_cast hsus1
  have hvacc0 : 0 ≤ pytrunc (((s.susceptible - min (internalExposures v iv
      (districtEffectiveR0 effR0 d) d s + externalExposures v (districtEffectiveR0 effR0 d)
        (7/10 * (1 - iv.travel_restrictions)) s.susceptible d.population pairs i)
      s.susceptible : ℤ) : ℚ) * iv.vaccination_campaign) :=
    pytrunc_nonneg (mul_nonneg hsus1Q hvc0)
  have hvaccle : pytrunc (((s.susceptible - min (internalExposures v iv
      (districtEffectiveR0 effR0 d) d s + externalExposures v (districtEffectiveR0 effR0 d)
        (7/10 * (1 - iv.travel_restrictions)) s.susceptible d.population pairs i)
      s.susceptible : ℤ) : ℚ) * iv.vaccination_campaign) ≤
      s.susceptible - min (internalExposures v iv (districtEffectiveR0 effR0 d) d s +
        externalExposures v (districtEffectiveR0 effR0 d)
          (7/10 * (1 - iv.travel_restrictions)) s.susceptible d.population pairs i)
        s.susceptible :=
    pytrunc_le_int (mul_nonneg hsus1Q hvc0) (mul_le_of_le_one_right hsus1Q hvc1)
  have hnewInf0 : 0 ≤ newInfectiousOf v s :=
    pytrunc_nonneg (div_nonneg hEQ hincub0)
  have hnewInfle : newInfectiousOf v s ≤ s.exposed :=
    pytrunc_le_int (div_nonneg hEQ hincub0) (div_le_self hEQ hincub)
  have hnewOut0 : 0 ≤ newOutcomesOf v s :=
    pytrunc_nonneg (div_nonneg hIQ hinfp0)
  have hnewOutle : newOutcomesOf v s ≤ s.infectious :=
    pytrunc_le_int (div_nonneg hIQ hinfp0) (div_le_self hIQ hinfp)
  have hnewOutQ : (0 : ℚ) ≤ (newOutcomesOf v s : ℚ) := by exact_mod_cast hnewOut0
  have hnewHosp0 : 0 ≤ newHospitalizedOf v d s :=
    pytrunc_nonneg (mul_nonneg (mul_nonneg hnewOutQ hhr0) (hospModifier_nonneg d s))
  have hnewRecD0 : 0 ≤ newRecoveredDirectOf v s :=
    pytrunc_nonneg (mul_nonneg hnewOutQ (by linarith))
  have hhOut0 : 0 ≤ hospitalOutcomesOf s :=
    pytrunc_nonneg (mul_nonneg hHQ (by norm_num))
  have hhOutle : hospitalOutcomesOf s ≤ s.hospitalized :=
    pytrunc_le_int (mul_nonneg hHQ (by norm_num))
      (mul_le_of_le_one_right hHQ (by norm_num))
  have hhOutQ : (0 : ℚ) ≤ (hospitalOutcomesOf s : ℚ) := by exact_mod_cast hhOut0
  have hffm : v.fatality_rate * fatModifier d s ≤ 1 := by
    rw [fatModifier]
    split
    · exact hfr1
    · rw [mul_one]
      linarith
  have hfm0 : 0 ≤ fatModifier d s := fatModifier_nonneg d s
  have hdeath0 : 0 ≤ hospitalDeathsOf v d s :=
    pytrunc_nonneg (mul_nonneg (mul_nonneg hhOutQ hfr0) hfm0)
  have hdeathle : hospitalDeathsOf v d s ≤ hospitalOutcomesOf s := by
    apply pytrunc_le_int (mul_nonneg (mul_nonneg hhOutQ hfr0) hfm0)
    calc (hospitalOutcomesOf s : ℚ) * v.fatality_rate * fatModifier d s =
        (hospitalOutcomesOf s : ℚ) * (v.fatality_rate * fatModifier d s) := by ring
      _ ≤ (hospitalOutcomesOf s : ℚ) * 1 := by
          exact mul_le_mul_of_nonneg_left hffm hhOutQ
      _ = (hospitalOutcomesOf s : ℚ) := mul_one _
  refine ⟨?_, ?_, ?_, ?_, ?_, ?_⟩
  · omega
  · omega
  · omega
  · omega
  · omega
  · omega

theorem dayUpdate_preserves (v : VirusParams) (iv : InterventionParams) (effR0 : ℚ)
    (pairs : List (District × DistrictState))
    (hv : virusParamsOK v) (hiv : interventionParamsOK iv) (heff : 0 ≤ effR0)
    (hall : ∀ p ∈ pairs, districtOK p.1 ∧ stateNonneg p.2) :
    ∀ q ∈ dayUpdate v iv effR0 pairs, districtOK q.1 ∧ stateNonneg q.2 := by
  rw [dayUpdate]
  have main : ∀ (js : List ℕ) (acc : List (District × DistrictState)),
      (∀ p ∈ acc, districtOK p.1 ∧ stateNonneg p.2) →
      ∀ q ∈ js.foldl
        (fun acc2 i => acc2.set i ((acc2.getD i default).1, stepOne v iv effR0 acc2 i)) acc,
        districtOK q.1 ∧ stateNonneg q.2 := by
    intro js
    induction js with
    | nil => intro acc hacc q hq; exact hacc q hq
    | cons j js ih =>
      intro acc hacc q hq
      rw [List.foldl_cons] at hq
      refine ih _ ?_ q hq
      intro p hp
      by_cases hj : j < acc.length
      · rcases List.mem_or_eq_of_mem_set hp with hin | heq
        · exact hacc p hin
        · rw [heq]
          refine ⟨(hacc _ (getD_mem_of_lt acc j hj)).1, ?_⟩
          exact stepOne_nonneg v iv effR0 acc j hv hiv heff hacc hj
      · rw [List.set_eq_of_length_le (le_of_not_lt hj)] at hp
        exact hacc p hp
  exact main (List.range pairs.length) pairs hall

theorem runDays_snapshots_nonneg (v : VirusParams) (iv : InterventionParams)
    (effR0 : ℚ) (now : ℤ)
    (hv : virusParamsOK v) (hiv : interventionParamsOK iv) (heff : 0 ≤ effR0) :
    ∀ (n : ℕ) (st : SimState),
      (∀ p ∈ st.pairs, districtOK p.1 ∧ stateNonneg p.2) →
      ∀ day ∈ runDays v iv effR0 now n st, ∀ sn ∈ day.districts,
        0 ≤ sn.susceptible ∧ 0 ≤ sn.exposed ∧ 0 ≤ sn.infectious ∧
          0 ≤ sn.hospitalized ∧ 0 ≤ sn.recovered ∧ 0 ≤ sn.deceased := by
  intro n
  induction n with
  | zero =>
    intro st hst day hday
    simp only [runDays] at hday
    cases hday
  | succ n ih =>
    intro st hst day hday
    simp only [runDays] at hday
    have hst2 : ∀ p ∈ (simStep v iv effR0 st).pairs, districtOK p.1 ∧ stateNonneg p.2 :=
      dayUpdate_preserves v iv effR0 st.pairs hv hiv heff hst
    rcases List.mem_cons.mp hday with hh | hh
    · intro sn hsn
      rw [hh] at hsn
      simp only [summaryOf] at hsn
      rcases List.mem_map.mp hsn with ⟨p, hp, hps⟩
      rw [← hps]
      have := (hst2 p hp).2
      exact ⟨this.1, this.2.1, this.2.2.1, this.2.2.2.1, this.2.2.2.2.1, this.2.2.2.2.2⟩
    · by_cases hC : (simStep v iv effR0 st).totE = 0 ∧ (simStep v iv effR0 st).totI = 0
      · rw [if_pos hC] at hh
        cases hh
      · rw [if_neg hC] at hh
        exact ih (simStep v iv effR0 st) hst2 day hh

/-- C2 as amended: the source contains no clamping at all — it caps new
exposures by the remaining susceptible with `min` and relies on truncation, so
compartments stay nonnegative only when the seeding itself is nonnegative
(every district's seeded cases at most its population) and the parameters lie
in their documented ranges.  Under those hypotheses every compartment of every
district is nonnegative on every simulated day; without them (initial cases
exceeding the most vulnerable district's population) day 0 is already
negative, as the counterexample shows. -/
theorem c2_nonneg_compartments_under_valid_seeding (cityPop : ℤ)
    (districts : List District) (v : VirusParams) (iv : InterventionParams)
    (days : ℕ) (c now : ℤ)
    (hv : virusParamsOK v) (hiv : interventionParamsOK iv)
    (hds : ∀ d ∈ districts, districtOK d)
    (hseed : ∀ s ∈ seedStates districts c, stateNonneg s) :
    ∀ day ∈ (run_outbreak_simulation cityPop districts v iv days c now).daily_results,
      ∀ sn ∈ day.districts,
        0 ≤ sn.susceptible ∧ 0 ≤ sn.exposed ∧ 0 ≤ sn.infectious ∧
          0 ≤ sn.hospitalized ∧ 0 ≤ sn.recovered ∧ 0 ≤ sn.deceased := by
  have heff := effectiveR0_nonneg v iv hv hiv
  have hpairs : ∀ p ∈ (initState cityPop districts c).pairs,
      districtOK p.1 ∧ stateNonneg p.2 := by
    intro p hp
    simp only [initState] at hp
    obtain ⟨a, b⟩ := p
    obtain ⟨h1, h2⟩ := List.of_mem_zip hp
    exact ⟨hds _ h1, hseed _ h2⟩
  intro day hday
  simp only [run_outbreak_simulation] at hday
  rcases List.mem_cons.mp hday with hh | hh
  · intro sn hsn
    rw [hh] at hsn
    simp only [summaryOf] at hsn
    rcases List.mem_map.mp hsn with ⟨p, hp, hps⟩
    rw [← hps]
    have := (hpairs p hp).2
    exact ⟨this.1, this.2.1, this.2.2.1, this.2.2.2.1, this.2.2.2.2.1, this.2.2.2.2.2⟩
  · exact runDays_snapshots_nonneg v iv (effectiveR0 v iv) now hv hiv heff days
      (initState cityPop districts c) hpairs day hh

/-- Seeding the three-district city with 5000 initial cases — more than the
most vulnerable district's population of 1000. -/
def c2Run : SimResults := run_outbreak_simulation 3000 cexDistricts cexVirus cexInterv 0 5000 0

unseal Rat.mul Rat.add Rat.sub Rat.inv in
/-- Counterexample to C2: with 5000 initial cases the most vulnerable district
is seeded 3554 exposed against a population of 1000, leaving susceptible at
−2554 on day 0 — no subtraction is clamped at 0. -/
theorem c2_counterexample :
    ((c2Run.daily_results.getD 0 default).districts.getD 0 default).susceptible = -2554 ∧
      ¬ (0 ≤ ((c2Run.daily_results.getD 0 default).districts.getD 0 default).susceptible) := by
  constructor
  · decide
  · decide

/-- A valid one-day run: 600 initial cases over the homogeneous 30000-person
city, parameters inside the documented ranges. -/
def c2WitRun : SimResults := run_outbreak_simulation 30000 plainDistricts fastVirus cexInterv 1 600 0

set_option maxRecDepth 4000 in
unseal Rat.mul Rat.add Rat.sub Rat.inv in
/-- Witness: the nonnegativity theorem instantiated at the valid one-day run,
read at the day-1 snapshot of the first district. -/
theorem c2_witness :
    0 ≤ ((c2WitRun.daily_results.getD 1 default).districts.getD 0 default).susceptible ∧
      0 ≤ ((c2WitRun.daily_results.getD 1 default).districts.getD 0 default).exposed ∧
      0 ≤ ((c2WitRun.daily_results.getD 1 default).districts.getD 0 default).infectious ∧
      0 ≤ ((c2WitRun.daily_results.getD 1 default).districts.getD 0 default).hospitalized ∧
      0 ≤ ((c2WitRun.daily_results.getD 1 default).districts.getD 0 default).recovered ∧
      0 ≤ ((c2WitRun.daily_results.getD 1 default).districts.getD 0 default).deceased :=
  c2_nonneg_compartments_under_valid_seeding 30000 plainDistricts fastVirus cexInterv
    1 600 0 (by decide) (by decide) (by decide) (by decide)
    ((c2WitRun.daily_results.getD 1 default)) (by decide)
    ((c2WitRun.daily_results.getD 1 default).districts.getD 0 default) (by decide)

end Viralytix
